import Mathlib

/-!
Shallow embedding of the wallet-session and chain-data aggregation logic of
the Web3 wallet connect component (source file `page.tsx`, the React client
component).  Pure computations (string parsing, unit conversion, network-name
resolution, call-data encoding) are translated into Lean functions; the
stateful React component is modelled by explicit state passing over a
`ComponentState` record, with the injected wallet provider abstracted as a
record of `Except`-valued response oracles and the sequence of outgoing
requests collected in an explicit trace of `Method`s.

JavaScript numbers that can be `NaN` (results of `parseInt`) are modelled as
`Option`-wrapped values, `none` standing for `NaN`; exact IEEE-754 rounding of
`toFixed` is abstracted by rational arithmetic (no claim depends on the
rounded digits themselves).
-/

/-! ## JavaScript string/number primitives used by the source -/

/-- Numeric value of a hexadecimal digit character, `none` for non-digits. -/
def hexDigitVal (c : Char) : Option Nat :=
  if '0' ≤ c ∧ c ≤ '9' then some (c.toNat - '0'.toNat)
  else if 'a' ≤ c ∧ c ≤ 'f' then some (c.toNat - 'a'.toNat + 10)
  else if 'A' ≤ c ∧ c ≤ 'F' then some (c.toNat - 'A'.toNat + 10)
  else none

/-- Numeric value of a decimal digit character, `none` for non-digits. -/
def decDigitVal (c : Char) : Option Nat :=
  if '0' ≤ c ∧ c ≤ '9' then some (c.toNat - '0'.toNat) else none

/-- Greedy accumulation of leading digits, stopping at the first non-digit
(the way JS `parseInt` consumes its input). -/
def parseDigitsAcc (base : Nat) (dv : Char → Option Nat) : List Char → Nat → Nat
  | [], acc => acc
  | c :: cs, acc =>
    match dv c with
    | some v => parseDigitsAcc base dv cs (acc * base + v)
    | none => acc

/-- Parse a digit string in the given base; `none` (JS `NaN`) when no leading
digit is present. -/
def parseDigits (base : Nat) (dv : Char → Option Nat) : List Char → Option Nat
  | [] => none
  | c :: cs =>
    match dv c with
    | some v => some (parseDigitsAcc base dv cs v)
    | none => none

/-- JS `parseInt(s, 16)` strips an optional `0x`/`0X` prefix. -/
def stripHex0x : List Char → List Char
  | '0' :: 'x' :: rest => rest
  | '0' :: 'X' :: rest => rest
  | l => l

/-- Model of JS `parseInt(s, 16)` on the non-negative inputs that occur here;
`none` models `NaN`. -/
def parseIntBase16 (s : String) : Option Nat :=
  parseDigits 16 hexDigitVal (stripHex0x s.data)

/-- Model of JS `parseInt(s)` / `parseInt(s, 10)` on non-negative inputs;
`none` models `NaN`. -/
def parseIntBase10 (s : String) : Option Nat :=
  parseDigits 10 decDigitVal s.data

/-- Left-pad a string to length `n` with copies of the character `c`:
model of JS `String.prototype.padStart(n, c)` for a one-character pad. -/
def padStart (s : String) (n : Nat) (c : Char) : String :=
  String.mk (List.replicate (n - s.data.length) c ++ s.data)

/-- Model of JS `address.slice(2)`: drop the first two characters. -/
def jsSlice2 (s : String) : String :=
  String.mk (s.data.drop 2)

/-- Left-pad a numeral string with zeros (used when rendering the fractional
part of a fixed-point numeral). -/
def padZeros (s : String) (n : Nat) : String :=
  padStart s n '0'

/-- Fixed-point rendering of a non-negative rational with `n` fractional
digits; abstracts JS `Number.prototype.toFixed` (rational rounding in place
of IEEE-754 double rounding). -/
def ratToFixed (q : ℚ) (n : Nat) : String :=
  let scaled : Int := Rat.floor (q * 10 ^ n + 1 / 2)
  let d : Int := (10 : Int) ^ n
  if n = 0 then toString scaled
  else toString (scaled / d) ++ "." ++ padZeros (toString (scaled % d).natAbs) n

/-- A JS number that may be `NaN`: `none` is `NaN`. -/
abbrev JSNum := Option ℚ

/-- Model of `toFixed` on a possibly-`NaN` number: JS renders `NaN.toFixed(n)` as
`"NaN"`. -/
def jsToFixed (x : JSNum) (n : Nat) : String :=
  match x with
  | none => "NaN"
  | some q => ratToFixed q n

/-- JS `x > 0` comparison: false when `x` is `NaN`. -/
def jsGtZero (x : JSNum) : Bool :=
  match x with
  | none => false
  | some q => decide (0 < q)

/-- Base-unit to display-unit conversion `raw / Math.pow(10, decimals)` on a
possibly-`NaN` parsed integer. -/
def rawToDisplay (raw : Option Nat) (decimals : Nat) : JSNum :=
  raw.map fun w : Nat => (w : ℚ) / 10 ^ decimals

/-! ## Data model (the TypeScript interfaces of the component) -/

/-- The `WalletState` interface: the session record held by the component. -/
structure WalletState where
  isConnected : Bool
  address : Option String
  balance : Option String
  network : Option String
  /-- `chainId: number | null`; `none` covers both `null` and `NaN`. -/
  chainId : Option Nat
  isLoading : Bool
  error : Option String
deriving DecidableEq

/-- Three-way transaction status enum of the `Transaction` interface. -/
inductive TxStatus where
  | success
  | pending
  | failed
deriving DecidableEq

/-- The `Transaction` interface: one normalized history record.  The numeric
fields `blockNumber`/`timestamp` are JS numbers, `none` modelling `NaN`. -/
structure Transaction where
  hash : String
  «from» : String
  «to» : Option String
  value : String
  gasUsed : String
  gasPrice : String
  blockNumber : Option Int
  timestamp : Option Int
  status : TxStatus
deriving DecidableEq

/-- The `TokenBalance` interface: one fungible-token holding. -/
structure TokenBalance where
  symbol : String
  balance : String
  decimals : Nat
  contractAddress : String
deriving DecidableEq

/-- One raw record of the transaction-history service response
(`data.result` entries): all scalar fields arrive as strings. -/
structure RawTx where
  hash : String
  «from» : String
  «to» : Option String
  value : String
  gasUsed : String
  gasPrice : String
  blockNumber : String
  timeStamp : String
  isError : String
deriving DecidableEq

/-- Parsed JSON body of the history-service response, restricted to the
fields the component reads: `data.status` and `data.result` (`none` models a
missing/`null` result field, which is falsy in JS; an empty list is truthy). -/
structure HistoryData where
  status : String
  result : Option (List RawTx)
deriving DecidableEq

/-- Outcome of the `fetch` round trip in `fetchTransactions`:
`throws` covers a network error or a body that fails JSON parsing (both reach
the `catch` block); `notOk` is a delivered response with `response.ok` false;
`ok` is a delivered, parsed body. -/
inductive HistoryOutcome where
  | throws
  | notOk
  | ok (data : HistoryData)
deriving DecidableEq

/-- Default wallet state, as initialized by `useState` at component mount and
re-imposed by `disconnectWallet`. -/
def initialWalletState : WalletState :=
  { isConnected := false
    address := none
    balance := none
    network := none
    chainId := none
    isLoading := false
    error := none }

/-- The component's whole mutable state: the session record plus the two
derived lists and the refresh flag (each a separate `useState` hook). -/
structure ComponentState where
  walletState : WalletState
  tokenBalances : List TokenBalance
  transactions : List Transaction
  isRefreshing : Bool
deriving DecidableEq

/-- Component state at mount. -/
def initialComponentState : ComponentState :=
  { walletState := initialWalletState
    tokenBalances := []
    transactions := []
    isRefreshing := false }

/-! ## Network Registry (`getNetworkName`, source lines 322-338) -/

/-- The chain identifiers present in the `networks` lookup table. -/
def knownChainIds : List Nat :=
  [1, 3, 4, 5, 11155111, 137, 80001, 56, 97, 42161, 10]

/-- Function `getNetworkName`: the `networks[chainId] || fallback` lookup, translated
as a decision chain over the table's keys. -/
def getNetworkName (chainId : Nat) : String :=
  if chainId = 1 then "Ethereum Mainnet"
  else if chainId = 3 then "Ropsten Testnet"
  else if chainId = 4 then "Rinkeby Testnet"
  else if chainId = 5 then "Goerli Testnet"
  else if chainId = 11155111 then "Sepolia Testnet"
  else if chainId = 137 then "Polygon Mainnet"
  else if chainId = 80001 then "Mumbai Testnet"
  else if chainId = 56 then "BSC Mainnet"
  else if chainId = 97 then "BSC Testnet"
  else if chainId = 42161 then "Arbitrum One"
  else if chainId = 10 then "Optimism"
  else "Unknown Network (Chain ID: " ++ toString chainId ++ ")"

/-! ## Token balances (`fetchTokenBalances`, source lines 256-319) -/

/-- One row of the hard-coded token catalog. -/
structure TokenInfo where
  symbol : String
  contractAddress : String
  decimals : Nat
deriving DecidableEq

/-- The fixed catalog `tokens` of `fetchTokenBalances`. -/
def tokens : List TokenInfo :=
  [ { symbol := "USDC"
      contractAddress := "0xA0b86a33E6417c5c7c4c4c4c4c4c4c4c4c4c4c4c"
      decimals := 6 },
    { symbol := "USDT"
      contractAddress := "0xdAC17F958D2ee523a2206206994597C13D831ec7"
      decimals := 6 },
    { symbol := "DAI"
      contractAddress := "0x6B175474E89094C44Da98b954EedeAC495271d0F"
      decimals := 18 } ]

/-- The `balanceOf(owner)` call data built in the token loop:
`'0x70a08231' + address.slice(2).padStart(64, '0')`. -/
def balanceOfCallData (address : String) : String :=
  "0x70a08231" ++ padStart (jsSlice2 address) 64 '0'

/-- An `eth_call` oracle: maps (contract address, call data) to the hex
result, or to the message of the thrown provider error. -/
abbrev EthCallOracle := String → String → Except String String

/-- Body of one iteration of the token loop: issue the contract call; on a
thrown error the token is skipped (inner `catch`); on success the hex result
is parsed, scaled by the token's decimals, and the holding is pushed only
when the resulting balance is `> 0`. -/
def tokenStep (ethCall : EthCallOracle) (address : String) (token : TokenInfo) :
    Option TokenBalance :=
  match ethCall token.contractAddress (balanceOfCallData address) with
  | .error _ => none
  | .ok result =>
    let balance : JSNum := rawToDisplay (parseIntBase16 result) token.decimals
    if jsGtZero balance then
      some { symbol := token.symbol
             balance := jsToFixed balance 2
             decimals := token.decimals
             contractAddress := token.contractAddress }
    else none

/-- The `for (const token of tokens)` loop, accumulating the `balances`
array in catalog order. -/
def fetchTokenBalancesLoop (ethCall : EthCallOracle) (address : String) :
    List TokenInfo → List TokenBalance
  | [] => []
  | t :: rest =>
    match tokenStep ethCall address t with
    | some b => b :: fetchTokenBalancesLoop ethCall address rest
    | none => fetchTokenBalancesLoop ethCall address rest

/-- Function `fetchTokenBalances`: run the loop over the fixed catalog.  (The outer
`try`/`catch` of the source guards nothing that can throw once every
per-token error is caught by the inner `catch`.) -/
def fetchTokenBalances (ethCall : EthCallOracle) (address : String) :
    List TokenBalance :=
  fetchTokenBalancesLoop ethCall address tokens

/-! ## Transaction history (`fetchTransactions`, source lines 70-114) -/

/-- Normalization of one raw service record into a `Transaction`
(the `map` callback of `fetchTransactions`): value converted wei → ETH with
6 fixed digits, gas price wei → Gwei with 2 fixed digits, numeric fields
parsed base 10, status mapped from the `isError` flag. -/
def formatTx (tx : RawTx) : Transaction :=
  { hash := tx.hash
    «from» := tx.«from»
    «to» := tx.«to»
    value := jsToFixed (rawToDisplay (parseIntBase10 tx.value) 18) 6
    gasUsed := tx.gasUsed
    gasPrice := jsToFixed (rawToDisplay (parseIntBase10 tx.gasPrice) 9) 2
    blockNumber := (parseIntBase10 tx.blockNumber).map fun n => (n : Int)
    timestamp := (parseIntBase10 tx.timeStamp).map fun n => (n : Int)
    status := if tx.isError = "0" then .success else .failed }

/-- The hard-coded development fallback record built in the `catch` block of
`fetchTransactions` (`now` is `Date.now()` in milliseconds). -/
def mockTransaction (address : String) (now : Int) : Transaction :=
  { hash := "0x1234567890abcdef1234567890abcdef12345678"
    «from» := address
    «to» := some "0x9876543210fedcba9876543210fedcba98765432"
    value := "0.123456"
    gasUsed := "21000"
    gasPrice := "20.5"
    blockNumber := some 12345678
    timestamp := some (now - 3600000)
    status := .success }

/-- Function `fetchTransactions` as a transformer of the `transactions` state:
- a thrown error (network failure or unparsable body) reaches the `catch`
  block, which installs the single mock record;
- a delivered response with `response.ok` false falls through both `if`s and
  leaves the state untouched;
- a parsed body updates the state only when `data.status === '1'` and
  `data.result` is truthy, taking the first 10 records and normalizing them.
-/
def fetchTransactions (outcome : HistoryOutcome) (address : String) (now : Int)
    (transactions : List Transaction) : List Transaction :=
  match outcome with
  | .throws => [mockTransaction address now]
  | .notOk => transactions
  | .ok data =>
    if data.status = "1" then
      match data.result with
      | some result => (result.take 10).map formatTx
      | none => transactions
    else transactions

/-! ## Wallet provider model and request traces -/

/-- The outgoing requests the component can issue: the five provider methods
plus the HTTP round trip of the history fetch. -/
inductive Method where
  | eth_accounts
  | eth_requestAccounts
  | eth_chainId
  | eth_getBalance
  | eth_call
  | historyFetch
deriving DecidableEq

/-- Response oracle for the injected provider: each field gives the value a
`window.ethereum.request` call resolves to, or the message of the error it
rejects with.  Hex-encoded responses are kept as the strings the provider
returns; the component parses them itself. -/
structure Provider where
  /-- response to `eth_accounts` (non-prompting). -/
  ethAccounts : Except String (List String)
  /-- response to `eth_requestAccounts` (may prompt the user). -/
  requestAccounts : Except String (List String)
  /-- response to `eth_chainId`: a hex string. -/
  chainIdResp : Except String String
  /-- response to `eth_getBalance(addr, 'latest')`: a hex string. -/
  getBalance : String → Except String String
  /-- response to `eth_call({to, data}, 'latest')`: a hex string. -/
  ethCall : EthCallOracle

/-- Trace of `eth_call` requests issued by the token loop: one per catalog
entry, the request being issued before its failure or success is known. -/
def tokenCallTrace : List Method :=
  tokens.map fun _ => Method.eth_call

/-- The failure exit of `connectWallet`'s `catch` block:
`setWalletState(prev => ({...prev, isLoading: false, error: message}))`.
(The preceding `setWalletState` at function entry had set `isLoading: true`
and `error: null`; composing the two functional updates leaves every other
field at its pre-call value.) -/
def connectFailState (s : ComponentState) (message : String) : ComponentState :=
  { s with walletState :=
      { s.walletState with isLoading := false, error := some message } }

/-! ## `connectWallet` (source lines 137-202) -/

/-- Function `connectWallet` as a state transformer, paired with the trace of
requests it issues.  The mandatory path is
`eth_requestAccounts` → `eth_chainId` → `eth_getBalance`; a thrown error at
any of these lands in the `catch` block (`connectFailState` with the thrown
`Error`'s message).  Zero returned accounts throws `'No accounts found'`.
On success the session record is rebuilt wholesale, then the token loop and
the history fetch run (each swallows its own errors and cannot throw). -/
def connectWallet (p : Provider) (outcome : HistoryOutcome) (now : Int)
    (s : ComponentState) : ComponentState × List Method :=
  let s0 : ComponentState :=
    { s with walletState := { s.walletState with isLoading := true, error := none } }
  match p.requestAccounts with
  | .error e => (connectFailState s0 e, [Method.eth_requestAccounts])
  | .ok accounts =>
    match accounts with
    | [] => (connectFailState s0 "No accounts found", [Method.eth_requestAccounts])
    | address :: _ =>
      match p.chainIdResp with
      | .error e =>
        (connectFailState s0 e, [Method.eth_requestAccounts, Method.eth_chainId])
      | .ok chainIdHex =>
        match p.getBalance address with
        | .error e =>
          (connectFailState s0 e,
           [Method.eth_requestAccounts, Method.eth_chainId, Method.eth_getBalance])
        | .ok balanceWei =>
          -- const balanceEth = parseInt(balanceWei, 16) / Math.pow(10, 18)
          let balanceEth : JSNum := rawToDisplay (parseIntBase16 balanceWei) 18
          -- const networkName = getNetworkName(parseInt(chainId, 16));
          -- a NaN chain id indexes nothing and yields the template fallback
          let chainIdNum : Option Nat := parseIntBase16 chainIdHex
          let networkName : String :=
            match chainIdNum with
            | some n => getNetworkName n
            | none => "Unknown Network (Chain ID: NaN)"
          let sConn : ComponentState :=
            { s0 with walletState :=
                { isConnected := true
                  address := some address
                  balance := some (jsToFixed balanceEth 6)
                  network := some networkName
                  chainId := chainIdNum
                  isLoading := false
                  error := none } }
          let sTok : ComponentState :=
            { sConn with tokenBalances := fetchTokenBalances p.ethCall address }
          let sTx : ComponentState :=
            { sTok with transactions :=
                fetchTransactions outcome address now sTok.transactions }
          (sTx,
           [Method.eth_requestAccounts, Method.eth_chainId, Method.eth_getBalance]
             ++ tokenCallTrace ++ [Method.historyFetch])

/-! ## `checkWalletConnection` (source lines 117-134) -/

/-- The startup probe: when a provider is injected, issue the non-prompting
`eth_accounts` query; when it returns a non-empty list, run `connectWallet`.
A thrown probe error is swallowed by the `catch` (console logging only). -/
def checkWalletConnection (p : Provider) (hasEthereum : Bool)
    (outcome : HistoryOutcome) (now : Int) (s : ComponentState) :
    ComponentState × List Method :=
  if hasEthereum then
    match p.ethAccounts with
    | .error _ => (s, [Method.eth_accounts])
    | .ok accounts =>
      if accounts.length > 0 then
        let r := connectWallet p outcome now s
        (r.1, Method.eth_accounts :: r.2)
      else (s, [Method.eth_accounts])
  else (s, [])

/-! ## `disconnectWallet` (source lines 205-219) -/

/-- Function `disconnectWallet`: rewrite the session record to the literal default
shape and empty both derived lists.  (`isRefreshing` is not touched.) -/
def disconnectWallet (s : ComponentState) : ComponentState :=
  { s with
      walletState :=
        { isConnected := false
          address := none
          balance := none
          network := none
          chainId := none
          isLoading := false
          error := none }
      tokenBalances := []
      transactions := [] }

/-! ## `refreshWalletData` (source lines 222-253) -/

/-- Function `refreshWalletData`: guard `if (!walletState.address) return` (falsy for
both `null` and the empty string), then set `isRefreshing`, re-run balance /
token / history fetches, and reset `isRefreshing` in the `finally` block.  A
thrown `eth_getBalance` error lands in the `catch` (toast only) and then the
`finally`; the token loop and history fetch never throw. -/
def refreshWalletData (p : Provider) (outcome : HistoryOutcome) (now : Int)
    (s : ComponentState) : ComponentState × List Method :=
  match s.walletState.address with
  | none => (s, [])
  | some address =>
    if address = "" then (s, [])
    else
      let s1 : ComponentState := { s with isRefreshing := true }
      match p.getBalance address with
      | .error _ => ({ s1 with isRefreshing := false }, [Method.eth_getBalance])
      | .ok balanceWei =>
        let balanceEth : JSNum := rawToDisplay (parseIntBase16 balanceWei) 18
        let s2 : ComponentState :=
          { s1 with walletState :=
              { s1.walletState with balance := some (jsToFixed balanceEth 6) } }
        let s3 : ComponentState :=
          { s2 with tokenBalances := fetchTokenBalances p.ethCall address }
        let s4 : ComponentState :=
          { s3 with transactions :=
              fetchTransactions outcome address now s3.transactions }
        ({ s4 with isRefreshing := false },
         Method.eth_getBalance :: tokenCallTrace ++ [Method.historyFetch])

/-! ## Shared concrete test fixtures -/

/-- A provider with no authorized account: `eth_requestAccounts` resolves to
an empty list. -/
def stubProvider : Provider :=
  { ethAccounts := .ok []
    requestAccounts := .ok []
    chainIdResp := .ok "0x1"
    getBalance := fun _ => .ok "0x0"
    ethCall := fun _ _ => .ok "0x0" }

/-- A character is a hexadecimal digit. -/
def hexChar (c : Char) : Bool := (hexDigitVal c).isSome

/-! ## Claims -/

/-- C4: for every prior state, `disconnectWallet` resets the session to the
exact default-disconnected shape and unconditionally clears the token-balance
list and the transaction list. -/
theorem disconnect_resets_all (s : ComponentState) :
    (disconnectWallet s).walletState = initialWalletState ∧
    (disconnectWallet s).tokenBalances = [] ∧
    (disconnectWallet s).transactions = [] :=
  ⟨rfl, rfl, rfl⟩

/-- C8: `getNetworkName` returns the registered display name on each of the
eleven known chain identifiers and the fallback string embedding the
identifier on every unknown one. -/
theorem network_name_resolution :
    (getNetworkName 1 = "Ethereum Mainnet" ∧
     getNetworkName 3 = "Ropsten Testnet" ∧
     getNetworkName 4 = "Rinkeby Testnet" ∧
     getNetworkName 5 = "Goerli Testnet" ∧
     getNetworkName 11155111 = "Sepolia Testnet" ∧
     getNetworkName 137 = "Polygon Mainnet" ∧
     getNetworkName 80001 = "Mumbai Testnet" ∧
     getNetworkName 56 = "BSC Mainnet" ∧
     getNetworkName 97 = "BSC Testnet" ∧
     getNetworkName 42161 = "Arbitrum One" ∧
     getNetworkName 10 = "Optimism") ∧
    ∀ chainId : Nat, chainId ∉ knownChainIds →
      getNetworkName chainId
        = "Unknown Network (Chain ID: " ++ toString chainId ++ ")" := by
  constructor
  · exact ⟨rfl, rfl, rfl, rfl, rfl, rfl, rfl, rfl, rfl, rfl, rfl⟩
  · intro chainId h
    simp only [knownChainIds, List.mem_cons, List.not_mem_nil, or_false, not_or] at h
    obtain ⟨h1, h2, h3, h4, h5, h6, h7, h8, h9, h10, h11⟩ := h
    simp [getNetworkName, h1, h2, h3, h4, h5, h6, h7, h8, h9, h10, h11]

/-- C8 witness: the unknown-chain branch evaluated at `999999`. -/
theorem network_name_resolution_witness :
    (999999 : Nat) ∉ knownChainIds ∧
    getNetworkName 999999 = "Unknown Network (Chain ID: 999999)" :=
  ⟨by decide, network_name_resolution.2 999999 (by decide)⟩

/-- C10: with no connected address, `refreshWalletData` returns at once,
issuing no provider or service request and changing no state. -/
theorem refresh_no_address_noop (p : Provider) (outcome : HistoryOutcome)
    (now : Int) (s : ComponentState) (h : s.walletState.address = none) :
    refreshWalletData p outcome now s = (s, []) := by
  unfold refreshWalletData
  rw [h]

/-- C10 witness: the initial (disconnected) state is left untouched by a
refresh against a concrete provider. -/
theorem refresh_no_address_noop_witness :
    initialComponentState.walletState.address = none ∧
    refreshWalletData stubProvider HistoryOutcome.notOk 0 initialComponentState
      = (initialComponentState, []) :=
  ⟨rfl, refresh_no_address_noop stubProvider HistoryOutcome.notOk 0
    initialComponentState rfl⟩

/-- C9: the call data for a token-balance query is the `balanceOf` selector
`0x70a08231` followed by the owner address without its `0x` prefix,
left-padded with zeros to exactly 64 hexadecimal characters. -/
theorem balanceOf_calldata_encoding (address : String)
    (hlen : address.data.length = 42)
    (hhex : ∀ c ∈ address.data.drop 2, hexChar c) :
    (balanceOfCallData address).data
      = "0x70a08231".data ++ (List.replicate 24 '0' ++ address.data.drop 2) ∧
    (List.replicate 24 '0' ++ address.data.drop 2).length = 64 ∧
    ∀ c ∈ List.replicate 24 '0' ++ address.data.drop 2, hexChar c := by
  refine ⟨?_, ?_, ?_⟩
  · show (("0x70a08231" : String) ++ padStart (jsSlice2 address) 64 '0').data = _
    rw [String.data_append]
    congr 1
    simp [padStart, jsSlice2, hlen]
  · simp [hlen]
  · intro c hc
    rcases List.mem_append.1 hc with h | h
    · rw [List.eq_of_mem_replicate h]
      decide
    · exact hhex c h

/-- C9 witness: the encoding evaluated at a concrete 42-character address. -/
theorem balanceOf_calldata_encoding_witness :
    ("0x1234567890abcdef1234567890abcdef12345678" : String).data.length = 42 ∧
    (balanceOfCallData "0x1234567890abcdef1234567890abcdef12345678").data
      = "0x70a08231".data
          ++ (List.replicate 24 '0'
                ++ ("0x1234567890abcdef1234567890abcdef12345678" : String).data.drop 2) ∧
    (List.replicate 24 '0'
        ++ ("0x1234567890abcdef1234567890abcdef12345678" : String).data.drop 2).length
      = 64 :=
  ⟨by decide,
   (balanceOf_calldata_encoding "0x1234567890abcdef1234567890abcdef12345678"
      (by decide) (by decide)).1,
   (balanceOf_calldata_encoding "0x1234567890abcdef1234567890abcdef12345678"
      (by decide) (by decide)).2.1⟩

/-- C1 counterexample: a delivered response with a non-success HTTP status
(`response.ok` false) does not install the synthetic placeholder — the
transaction list is left exactly as it was (here: empty), so the fetch
failure does not yield one placeholder record. -/
theorem history_notOk_no_placeholder :
    fetchTransactions HistoryOutcome.notOk
        "0x1234567890abcdef1234567890abcdef12345678" 7200000 []
      ≠ [mockTransaction "0x1234567890abcdef1234567890abcdef12345678" 7200000] := by
  decide

/-- C1 (amended): only a *thrown* failure of the history fetch (network
error, or a body that fails JSON parsing) installs exactly one synthetic
placeholder record with status success and timestamp one hour before `now`;
a delivered response with a non-success HTTP status, or a parsed body with a
non-success status flag or missing result list, leaves the transaction list
unchanged.  No failure path escapes the function. -/
theorem history_failure_fallback (address : String) (now : Int)
    (prev : List Transaction) :
    (fetchTransactions HistoryOutcome.throws address now prev
        = [mockTransaction address now] ∧
     (mockTransaction address now).status = TxStatus.success ∧
     (mockTransaction address now).timestamp = some (now - 3600000)) ∧
    fetchTransactions HistoryOutcome.notOk address now prev = prev ∧
    (∀ data : HistoryData, data.status ≠ "1" →
       fetchTransactions (HistoryOutcome.ok data) address now prev = prev) ∧
    (∀ data : HistoryData, data.result = none →
       fetchTransactions (HistoryOutcome.ok data) address now prev = prev) := by
  refine ⟨⟨rfl, rfl, rfl⟩, rfl, ?_, ?_⟩
  · intro data h
    simp [fetchTransactions, h]
  · intro data h
    by_cases hs : data.status = "1" <;> simp [fetchTransactions, hs, h]

/-- C1 witness: the fallback and no-update branches at concrete inputs. -/
theorem history_failure_fallback_witness :
    fetchTransactions HistoryOutcome.throws "0xabc" 7200000 []
      = [mockTransaction "0xabc" 7200000] ∧
    ({ status := "0", result := some [] } : HistoryData).status ≠ "1" ∧
    fetchTransactions
        (HistoryOutcome.ok { status := "0", result := some [] }) "0xabc" 7200000 []
      = [] :=
  ⟨(history_failure_fallback "0xabc" 7200000 []).1.1,
   by decide,
   (history_failure_fallback "0xabc" 7200000 []).2.2.1
     { status := "0", result := some [] } (by decide)⟩

/-- An `eth_call` oracle for which exactly one catalog token (USDC) fails
while the other two calls succeed — but with a zero raw balance. -/
def oneFailingZeroOracle : EthCallOracle := fun contract _ =>
  if contract = "0xA0b86a33E6417c5c7c4c4c4c4c4c4c4c4c4c4c4c" then
    Except.error "execution reverted"
  else Except.ok "0x0"

/-- Unfolding equation for `rawToDisplay` on a parsed value. -/
theorem rawToDisplay_some (w decimals : Nat) :
    rawToDisplay (some w) decimals = some ((w : ℚ) / 10 ^ decimals) := rfl

/-- Unfolding equation for `jsGtZero` on a non-`NaN` value. -/
theorem jsGtZero_some (q : ℚ) : jsGtZero (some q) = decide (0 < q) := rfl

/-- A zero raw balance fails the `balance > 0` filter. -/
theorem jsGtZero_zero (decimals : Nat) :
    jsGtZero (rawToDisplay (some 0) decimals) = false := by
  rw [rawToDisplay_some, jsGtZero_some]
  norm_num

/-- A positive raw balance passes the `balance > 0` filter. -/
theorem jsGtZero_pos (w decimals : Nat) (h : 0 < w) :
    jsGtZero (rawToDisplay (some w) decimals) = true := by
  rw [rawToDisplay_some, jsGtZero_some, decide_eq_true_eq]
  positivity

/-- C5 counterexample: with the 3-token catalog and exactly one failing
call, the result need not have exactly 2 entries — a successful call whose
balance is zero is also omitted (the `balance > 0` filter), so here the
result is empty. -/
theorem token_one_failure_not_two :
    (fetchTokenBalances oneFailingZeroOracle
        "0x1234567890abcdef1234567890abcdef12345678").length ≠ 2 := by
  have hUSDC : oneFailingZeroOracle "0xA0b86a33E6417c5c7c4c4c4c4c4c4c4c4c4c4c4c"
      (balanceOfCallData "0x1234567890abcdef1234567890abcdef12345678")
      = Except.error "execution reverted" := rfl
  have hUSDT : oneFailingZeroOracle "0xdAC17F958D2ee523a2206206994597C13D831ec7"
      (balanceOfCallData "0x1234567890abcdef1234567890abcdef12345678")
      = Except.ok "0x0" := rfl
  have hDAI : oneFailingZeroOracle "0x6B175474E89094C44Da98b954EedeAC495271d0F"
      (balanceOfCallData "0x1234567890abcdef1234567890abcdef12345678")
      = Except.ok "0x0" := rfl
  have hp0 : parseIntBase16 "0x0" = some 0 := by decide
  show (fetchTokenBalancesLoop oneFailingZeroOracle
      "0x1234567890abcdef1234567890abcdef12345678" tokens).length ≠ 2
  simp [tokens, fetchTokenBalancesLoop, tokenStep, hUSDC, hUSDT, hDAI, hp0,
    jsGtZero_zero]

/-- C5 (amended): a token whose contract call fails is omitted while every
other catalog entry is still processed (the loop is the catalog's
`filterMap` over the per-token step); with the 3-token catalog, one failing
call and the two remaining calls returning positive balances, the result has
exactly 2 entries. -/
theorem token_failure_omission (ethCall : EthCallOracle) (address : String)
    (e r2 r3 : String)
    (h1 : ethCall "0xA0b86a33E6417c5c7c4c4c4c4c4c4c4c4c4c4c4c"
            (balanceOfCallData address) = .error e)
    (h2 : ethCall "0xdAC17F958D2ee523a2206206994597C13D831ec7"
            (balanceOfCallData address) = .ok r2)
    (h2p : jsGtZero (rawToDisplay (parseIntBase16 r2) 6) = true)
    (h3 : ethCall "0x6B175474E89094C44Da98b954EedeAC495271d0F"
            (balanceOfCallData address) = .ok r3)
    (h3p : jsGtZero (rawToDisplay (parseIntBase16 r3) 18) = true) :
    (∀ catalog : List TokenInfo,
       fetchTokenBalancesLoop ethCall address catalog
         = catalog.filterMap (tokenStep ethCall address)) ∧
    (fetchTokenBalances ethCall address).length = 2 := by
  constructor
  · intro catalog
    induction catalog with
    | nil => rfl
    | cons t rest ih =>
      simp only [fetchTokenBalancesLoop, List.filterMap_cons]
      cases tokenStep ethCall address t <;> simp [ih]
  · show (fetchTokenBalancesLoop ethCall address tokens).length = 2
    simp only [tokens, fetchTokenBalancesLoop, tokenStep]
    rw [h1, h2, h3]
    simp only [h2p, if_true]
    simp [h3p]

/-- An `eth_call` oracle with one failing token (USDC) and positive
balances (1 whole unit scaled by 18 decimals) for the other two. -/
def oneFailingPositiveOracle : EthCallOracle := fun contract _ =>
  if contract = "0xA0b86a33E6417c5c7c4c4c4c4c4c4c4c4c4c4c4c" then
    Except.error "execution reverted"
  else Except.ok "0xDE0B6B3A7640000"

/-- C5 witness: the amended two-entry case at a concrete oracle. -/
theorem token_failure_omission_witness :
    (fetchTokenBalances oneFailingPositiveOracle
        "0x1234567890abcdef1234567890abcdef12345678").length = 2 :=
  have hp : parseIntBase16 "0xDE0B6B3A7640000" = some 1000000000000000000 := by
    decide
  (token_failure_omission oneFailingPositiveOracle
      "0x1234567890abcdef1234567890abcdef12345678"
      "execution reverted" "0xDE0B6B3A7640000" "0xDE0B6B3A7640000"
      rfl rfl (by rw [hp]; exact jsGtZero_pos _ 6 (by norm_num))
      rfl (by rw [hp]; exact jsGtZero_pos _ 18 (by norm_num))).2

/-- C3: every mandatory connect-step failure (accounts, chain id, native
balance) lands in the `catch` block, which surfaces the thrown message as the
session `error`, resets `isLoading` to `false`, and leaves every other
session field, both derived lists and the refresh flag at their pre-call
values; a failing refresh likewise resets `isRefreshing` in its `finally`
block. -/
theorem connect_mandatory_failure (p : Provider) (outcome : HistoryOutcome)
    (now : Int) (s : ComponentState) :
    (∀ e, p.requestAccounts = .error e →
       connectWallet p outcome now s
         = (connectFailState s e, [Method.eth_requestAccounts])) ∧
    (∀ a rest e, p.requestAccounts = .ok (a :: rest) → p.chainIdResp = .error e →
       connectWallet p outcome now s
         = (connectFailState s e,
            [Method.eth_requestAccounts, Method.eth_chainId])) ∧
    (∀ a rest c e, p.requestAccounts = .ok (a :: rest) → p.chainIdResp = .ok c →
       p.getBalance a = .error e →
       connectWallet p outcome now s
         = (connectFailState s e,
            [Method.eth_requestAccounts, Method.eth_chainId,
             Method.eth_getBalance])) ∧
    (∀ e, (connectFailState s e).walletState.isLoading = false ∧
       (connectFailState s e).walletState.error = some e ∧
       (connectFailState s e).walletState.isConnected = s.walletState.isConnected ∧
       (connectFailState s e).walletState.address = s.walletState.address ∧
       (connectFailState s e).walletState.balance = s.walletState.balance ∧
       (connectFailState s e).walletState.network = s.walletState.network ∧
       (connectFailState s e).walletState.chainId = s.walletState.chainId ∧
       (connectFailState s e).tokenBalances = s.tokenBalances ∧
       (connectFailState s e).transactions = s.transactions ∧
       (connectFailState s e).isRefreshing = s.isRefreshing) ∧
    (∀ address e, s.walletState.address = some address → address ≠ "" →
       p.getBalance address = .error e →
       refreshWalletData p outcome now s
         = ({ s with isRefreshing := false }, [Method.eth_getBalance])) := by
  refine ⟨?_, ?_, ?_, ?_, ?_⟩
  · intro e h
    simp only [connectWallet, h]
    rfl
  · intro a rest e h1 h2
    simp only [connectWallet, h1, h2]
    rfl
  · intro a rest c e h1 h2 h3
    simp only [connectWallet, h1, h2, h3]
    rfl
  · intro e
    exact ⟨rfl, rfl, rfl, rfl, rfl, rfl, rfl, rfl, rfl, rfl⟩
  · intro address e haddr hne h
    simp only [refreshWalletData, haddr, if_neg hne, h]

/-- A provider whose accounts-access request is rejected by the user. -/
def rejectingProvider : Provider :=
  { ethAccounts := .ok []
    requestAccounts := .error "User rejected the request."
    chainIdResp := .ok "0x1"
    getBalance := fun _ => .ok "0x0"
    ethCall := fun _ _ => .ok "0x0" }

/-- C3 witness: a rejected accounts request at the initial state. -/
theorem connect_mandatory_failure_witness :
    connectWallet rejectingProvider HistoryOutcome.notOk 0 initialComponentState
      = (connectFailState initialComponentState "User rejected the request.",
         [Method.eth_requestAccounts]) :=
  (connect_mandatory_failure rejectingProvider HistoryOutcome.notOk 0
      initialComponentState).1 "User rejected the request." rfl

/-- C7: an accounts-access request that resolves to an empty account list
makes `connectWallet` throw and catch `'No accounts found'`: the session
error is exactly that message and, from a disconnected pre-state, the
session stays disconnected with no address or balance set. -/
theorem connect_no_accounts (p : Provider) (outcome : HistoryOutcome)
    (now : Int) (s : ComponentState) (h : p.requestAccounts = .ok []) :
    connectWallet p outcome now s
      = (connectFailState s "No accounts found", [Method.eth_requestAccounts]) ∧
    (connectWallet p outcome now s).1.walletState.error
      = some "No accounts found" ∧
    (s.walletState.isConnected = false →
       (connectWallet p outcome now s).1.walletState.isConnected = false) ∧
    (s.walletState.address = none →
       (connectWallet p outcome now s).1.walletState.address = none) ∧
    (s.walletState.balance = none →
       (connectWallet p outcome now s).1.walletState.balance = none) := by
  have heq : connectWallet p outcome now s
      = (connectFailState s "No accounts found", [Method.eth_requestAccounts]) := by
    simp only [connectWallet, h]
    rfl
  refine ⟨heq, ?_, ?_, ?_, ?_⟩
  · rw [heq]; rfl
  · intro hc; rw [heq]; exact hc
  · intro hc; rw [heq]; exact hc
  · intro hc; rw [heq]; exact hc

/-- C7 witness: zero returned accounts against the initial state. -/
theorem connect_no_accounts_witness :
    connectWallet stubProvider HistoryOutcome.notOk 0 initialComponentState
      = (connectFailState initialComponentState "No accounts found",
         [Method.eth_requestAccounts]) ∧
    (connectWallet stubProvider HistoryOutcome.notOk 0
        initialComponentState).1.walletState.isConnected = false :=
  ⟨(connect_no_accounts stubProvider HistoryOutcome.notOk 0
      initialComponentState rfl).1,
   (connect_no_accounts stubProvider HistoryOutcome.notOk 0
      initialComponentState rfl).2.2.1 rfl⟩

/-- A provider with an already-authorized account: the non-prompting
`eth_accounts` probe returns a non-empty list. -/
def authorizedProvider : Provider :=
  { ethAccounts := .ok ["0x1234567890abcdef1234567890abcdef12345678"]
    requestAccounts := .ok ["0x1234567890abcdef1234567890abcdef12345678"]
    chainIdResp := .ok "0x1"
    getBalance := fun _ => .ok "0xDE0B6B3A7640000"
    ethCall := fun _ _ => .error "execution reverted" }

/-- C2 counterexample: when the startup probe finds an authorized account it
runs `connectWallet`, whose first request is the *prompting*
`eth_requestAccounts` — so the startup path does invoke a prompting provider
method. -/
theorem startup_probe_issues_prompting_request :
    Method.eth_requestAccounts ∈
      (checkWalletConnection authorizedProvider true HistoryOutcome.notOk 7200000
          initialComponentState).2 := by
  decide

/-- C2 (amended): the startup probe itself issues only the non-prompting
`eth_accounts` query, and stops there when the query fails or returns no
account; when it returns a non-empty list, the probe delegates to
`connectWallet`, whose request trace always begins with the prompting
`eth_requestAccounts`. -/
theorem startup_probe_methods (p : Provider) (outcome : HistoryOutcome)
    (now : Int) (s : ComponentState) :
    checkWalletConnection p false outcome now s = (s, []) ∧
    (∀ e, p.ethAccounts = .error e →
       checkWalletConnection p true outcome now s = (s, [Method.eth_accounts])) ∧
    (p.ethAccounts = .ok [] →
       checkWalletConnection p true outcome now s = (s, [Method.eth_accounts])) ∧
    (∀ a rest, p.ethAccounts = .ok (a :: rest) →
       (checkWalletConnection p true outcome now s).2
         = Method.eth_accounts :: (connectWallet p outcome now s).2) ∧
    (connectWallet p outcome now s).2.head? = some Method.eth_requestAccounts := by
  refine ⟨rfl, ?_, ?_, ?_, ?_⟩
  · intro e h
    simp only [checkWalletConnection, h]
    rfl
  · intro h
    simp only [checkWalletConnection, h]
    rfl
  · intro a rest h
    simp [checkWalletConnection, h]
  · rcases hr : p.requestAccounts with e | accounts
    · simp only [connectWallet, hr]
      rfl
    · rcases accounts with _ | ⟨a, rest⟩
      · simp only [connectWallet, hr]
        rfl
      · rcases hc : p.chainIdResp with e | cid
        · simp only [connectWallet, hr, hc]
          rfl
        · rcases hb : p.getBalance a with e | bal
          · simp only [connectWallet, hr, hc, hb]
            rfl
          · simp only [connectWallet, hr, hc, hb]
            rfl

/-- C2 witness: the empty-probe stop and the delegation trace at concrete
providers. -/
theorem startup_probe_methods_witness :
    checkWalletConnection stubProvider true HistoryOutcome.notOk 0
        initialComponentState
      = (initialComponentState, [Method.eth_accounts]) ∧
    (checkWalletConnection authorizedProvider true HistoryOutcome.notOk 0
        initialComponentState).2
      = Method.eth_accounts
          :: (connectWallet authorizedProvider HistoryOutcome.notOk 0
                initialComponentState).2 :=
  ⟨(startup_probe_methods stubProvider HistoryOutcome.notOk 0
      initialComponentState).2.2.1 rfl,
   (startup_probe_methods authorizedProvider HistoryOutcome.notOk 0
      initialComponentState).2.2.2.1
      "0x1234567890abcdef1234567890abcdef12345678" [] rfl⟩

/-- Recency key of a raw service record: its parsed `timeStamp`
(an unparsable stamp counts as 0). -/
def rawTxTimeKey (tx : RawTx) : Nat :=
  (parseIntBase10 tx.timeStamp).getD 0

/-- Recency key of a normalized record: its `timestamp` field
(`NaN` counts as 0). -/
def txRecencyKey (t : Transaction) : Int :=
  t.timestamp.getD 0

/-- C6: on a successful history-service response (status flag `'1'`, result
list present) that is sorted by descending recency — which the component
requests via `sort=desc` — the normalized history has at most 10 records, is
in descending recency order, consists of the most recent records (every kept
record is at least as recent as every record beyond the first 10), and each
record's status is success exactly when the service's `isError` flag is
`"0"` and failed otherwise — never pending. -/
theorem history_normalization (data : HistoryData) (result : List RawTx)
    (address : String) (now : Int) (prev : List Transaction)
    (hstatus : data.status = "1") (hresult : data.result = some result)
    (hsorted : result.Pairwise fun a b => rawTxTimeKey b ≤ rawTxTimeKey a) :
    (fetchTransactions (HistoryOutcome.ok data) address now prev).length ≤ 10 ∧
    (fetchTransactions (HistoryOutcome.ok data) address now prev).Pairwise
      (fun a b => txRecencyKey b ≤ txRecencyKey a) ∧
    (∀ t ∈ fetchTransactions (HistoryOutcome.ok data) address now prev,
       ∀ tx ∈ result.drop 10, (rawTxTimeKey tx : Int) ≤ txRecencyKey t) ∧
    (∀ tx ∈ result, (formatTx tx).status
        = if tx.isError = "0" then TxStatus.success else TxStatus.failed) ∧
    (∀ t ∈ fetchTransactions (HistoryOutcome.ok data) address now prev,
       t.status ≠ TxStatus.pending) := by
  have heq : fetchTransactions (HistoryOutcome.ok data) address now prev
      = (result.take 10).map formatTx := by
    simp [fetchTransactions, hstatus, hresult]
  have hkey : ∀ tx : RawTx, txRecencyKey (formatTx tx) = (rawTxTimeKey tx : Int) := by
    intro tx
    unfold txRecencyKey rawTxTimeKey formatTx
    cases parseIntBase10 tx.timeStamp <;> simp
  refine ⟨?_, ?_, ?_, ?_, ?_⟩
  · rw [heq]
    simp [List.length_take]
  · rw [heq, List.pairwise_map]
    have h10 : (result.take 10).Pairwise
        (fun a b => rawTxTimeKey b ≤ rawTxTimeKey a) :=
      hsorted.take
    exact h10.imp fun hab => by rw [hkey, hkey]; exact_mod_cast hab
  · intro t ht tx htx
    rw [heq] at ht
    rcases List.mem_map.1 ht with ⟨a, ha, rfl⟩
    rw [hkey]
    exact_mod_cast hsorted.rel_of_mem_take_of_mem_drop ha htx
  · intro tx _
    rfl
  · intro t ht
    rw [heq] at ht
    rcases List.mem_map.1 ht with ⟨a, _, rfl⟩
    by_cases hErr : a.isError = "0" <;> simp [formatTx, hErr]

/-- A concrete successful service record (a value transfer, no error). -/
def rawTxOk : RawTx :=
  { hash := "0xaaaa000000000000000000000000000000000000000000000000000000000000"
    «from» := "0x1111111111111111111111111111111111111111"
    «to» := some "0x2222222222222222222222222222222222222222"
    value := "1000000000000000000"
    gasUsed := "21000"
    gasPrice := "20000000000"
    blockNumber := "12345679"
    timeStamp := "1700000300"
    isError := "0" }

/-- A concrete older failed service record. -/
def rawTxFailed : RawTx :=
  { hash := "0xbbbb000000000000000000000000000000000000000000000000000000000000"
    «from» := "0x1111111111111111111111111111111111111111"
    «to» := some "0x3333333333333333333333333333333333333333"
    value := "0"
    gasUsed := "42000"
    gasPrice := "25000000000"
    blockNumber := "12345600"
    timeStamp := "1700000000"
    isError := "1" }

/-- A concrete successful, sorted history response body. -/
def histDataSample : HistoryData :=
  { status := "1", result := some [rawTxOk, rawTxFailed] }

/-- C6 witness: the normalization bounds on a concrete two-record
response. -/
theorem history_normalization_witness :
    histDataSample.status = "1" ∧
    (fetchTransactions (HistoryOutcome.ok histDataSample) "0xabc" 0 []).length
      ≤ 10 ∧
    ∀ t ∈ fetchTransactions (HistoryOutcome.ok histDataSample) "0xabc" 0 [],
      t.status ≠ TxStatus.pending :=
  ⟨rfl,
   (history_normalization histDataSample [rawTxOk, rawTxFailed] "0xabc" 0 []
      rfl rfl (by decide)).1,
   (history_normalization histDataSample [rawTxOk, rawTxFailed] "0xabc" 0 []
      rfl rfl (by decide)).2.2.2.2⟩
